import Mathlib

/-!
Verification of the request-throttling component of the podcast-automation
backend (`src/backend/api/throttling.py` and the `cache_result` helper in
`src/backend/common/utils.py`).

Python strings are modelled as `List Char`, Python runtime values that flow
through the throttle as `PyVal`, and raised exceptions as `PyErr` carried in
`Except`.  Timestamps (Python floats from `time.time()`) are modelled as `Int`;
none of the verified properties depends on fractional seconds.
-/

deriving instance DecidableEq for Except

namespace Throttle

/-- Python exceptions that the modelled code can raise.  `validationError`
models the repository's `ValidationError` class, which subclasses `Exception`
directly (not `ValueError`). `storeError` stands for an arbitrary exception
raised by an injected cache backend. -/
inductive PyErr where
  | typeError
  | attributeError
  | keyError
  | indexError
  | storeError
  | validationError (msg : List Char)
deriving DecidableEq, Repr

/-- Python runtime values flowing through the throttle: `None`, booleans,
ints, strings, lists of timestamps, and dicts (used only for the empty
`self.history` dict; its keys and values are modelled as ints). -/
inductive PyVal where
  | none
  | bool (b : Bool)
  | int (n : Int)
  | str (s : List Char)
  | list (xs : List Int)
  | dict (entries : List (Int × Int))
deriving DecidableEq, Repr

/-- Python truthiness (`bool(v)`): `None`, `False`, `0`, and empty
containers are falsy. -/
def pyTruthy : PyVal → Bool
  | PyVal.none => false
  | PyVal.bool b => b
  | PyVal.int n => decide (n ≠ 0)
  | PyVal.str s => !s.isEmpty
  | PyVal.list xs => !xs.isEmpty
  | PyVal.dict es => !es.isEmpty

/-- Characters stripped by Python's `str.strip()` with no argument
(ASCII whitespace; the exotic unicode whitespace classes are not needed by
any input the throttle handles). -/
def isPySpace (c : Char) : Bool :=
  c == ' ' || c == '\t' || c == '\n' || c == '\r' || c == '\x0b' || c == '\x0c'

/-- Models Python `str.strip()`: remove leading and trailing whitespace. -/
def pyStrip (s : List Char) : List Char :=
  ((s.dropWhile isPySpace).reverse.dropWhile isPySpace).reverse

/-- Models Python `str.split(sep)` for a one-character separator: splitting
never yields the empty list (`"".split('/') == ['']`), so the `headD`/`tail`
accesses below always see a nonempty result. -/
def pySplit (sep : Char) : List Char → List (List Char)
  | [] => [[]]
  | c :: rest =>
    let r := pySplit sep rest
    if c = sep then [] :: r else (c :: r.headD []) :: r.tail

/-- Decimal digit test, as used by `int()` parsing. -/
def isPyDigit (c : Char) : Bool := '0' ≤ c && c ≤ '9'

/-- Accumulator pass over a digit string; fails on the first non-digit. -/
def digitsToNat (acc : Nat) : List Char → Option Nat
  | [] => some acc
  | c :: cs =>
    if isPyDigit c then digitsToNat (acc * 10 + (c.toNat - 48)) cs else Option.none

/-- Sign-and-digits phase of Python `int(s)` parsing, applied after
whitespace has been stripped. -/
def pyIntOfStripped : List Char → Option Int
  | [] => Option.none
  | c :: rest =>
    if c = '-' then
      if rest = [] then Option.none
      else (digitsToNat 0 rest).map (fun n => -(n : Int))
    else if c = '+' then
      if rest = [] then Option.none
      else (digitsToNat 0 rest).map (fun n => (n : Int))
    else (digitsToNat 0 (c :: rest)).map (fun n => (n : Int))

/-- Models Python `int(s)` on a string: strip whitespace, then an optional
sign followed by a nonempty run of decimal digits.  (The underscore digit
separators accepted by CPython are not modelled; no input in this repository
uses them.) -/
def pyIntOfStr (s : List Char) : Option Int :=
  pyIntOfStripped (pyStrip s)

/-- The character of a single decimal digit. -/
def digitChar (d : Nat) : Char := Char.ofNat (48 + d)

/-- Fuel-driven decimal rendering of a natural number (the fuel makes the
definition structurally recursive, hence kernel-reducible; `natToDigits`
supplies enough fuel for any input). -/
def natToDigitsCore (fuel n : Nat) : List Char :=
  match fuel with
  | 0 => []
  | fuel' + 1 =>
    if n < 10 then [digitChar n]
    else natToDigitsCore fuel' (n / 10) ++ [digitChar (n % 10)]

/-- Decimal rendering of a natural number, as Python `str(n)` produces. -/
def natToDigits (n : Nat) : List Char := natToDigitsCore (n + 1) n

/-- Models Python `str(i)` for an int. -/
def intToDigits (i : Int) : List Char :=
  if i < 0 then '-' :: natToDigits i.natAbs else natToDigits i.toNat

/-- Comma-space joining, used only to give `pyStrOf` a total definition on
lists and dicts. -/
def joinComma : List (List Char) → List Char
  | [] => []
  | [x] => x
  | x :: y :: rest => x ++ ',' :: ' ' :: joinComma (y :: rest)

/-- Models Python `str(v)` as used by `str.format` on the cache-key
template: `None` renders as "None", strings render as themselves. -/
def pyStrOf : PyVal → List Char
  | PyVal.none => "None".toList
  | PyVal.bool true => "True".toList
  | PyVal.bool false => "False".toList
  | PyVal.int n => intToDigits n
  | PyVal.str s => s
  | PyVal.list xs => '[' :: (joinComma (xs.map intToDigits) ++ [']'])
  | PyVal.dict es =>
      Char.ofNat 123 :: (joinComma (es.map (fun e => intToDigits e.1 ++ ':' :: ' ' :: intToDigits e.2)) ++ [Char.ofNat 125])

/-! ## The throttling data model (`src/backend/api/throttling.py`) -/

/-- The module-level `DEFAULT_THROTTLE_RATES` dict: the two named rate
strings that form the configuration surface (the source's "Human Tasks"
list expects deployments to adjust them). -/
structure ThrottleRates where
  user : List Char
  anon : List Char
deriving DecidableEq, Repr

/-- The values shipped in the source: `'user': '100/hour'`, `'anon': '10/hour'`. -/
def DEFAULT_THROTTLE_RATES : ThrottleRates :=
  { user := "100/hour".toList, anon := "10/hour".toList }

/-- The slice of a Django `HttpRequest` that the throttle reads:
`request.user.is_authenticated`, `request.user.id`, and the two
`request.META` entries.  A `META` entry models `dict.get`: absent keys give
`Option.none` (Python `None`). -/
structure Request where
  authenticated : Bool
  userId : Int
  httpXForwardedFor : Option (List Char)
  remoteAddr : Option (List Char)
deriving DecidableEq, Repr

/-- Instance attributes of a `CustomThrottle` object.  `__init__` sets
`rate = None`, `history = {}` and the `cache_format` template; `ident` is
assigned during `allow_request` (before that first assignment the attribute
does not exist on the Python object and is never read — it is initialised to
`None` here). -/
structure CustomThrottleState where
  rate : PyVal
  history : PyVal
  cache_format : List Char
  ident : PyVal
deriving DecidableEq, Repr

/-- Models `CustomThrottle.__init__`. -/
def CustomThrottle.init : CustomThrottleState :=
  { rate := PyVal.none
  , history := PyVal.dict []
  , cache_format := "throttle_{ident}_{rate}".toList
  , ident := PyVal.none }

/-- Models `CustomThrottle.get_client_ip`: the first comma-separated entry
of `HTTP_X_FORWARDED_FOR`, stripped, when that header is truthy (present and
nonempty); otherwise `META.get('REMOTE_ADDR')`, which is `None` when the key
is absent.  The function is total: it cannot raise. -/
def get_client_ip (r : Request) : Option (List Char) :=
  match r.httpXForwardedFor with
  | some xff =>
    if xff.isEmpty then r.remoteAddr
    else some (pyStrip ((pySplit ',' xff).headD []))
  | Option.none => r.remoteAddr

/-- Models `CustomThrottle.get_ident`: `str(request.user.id)` for an
authenticated request, else `get_client_ip` (which may yield Python `None`,
modelled as `Option.none`). -/
def get_ident (r : Request) : Option (List Char) :=
  if r.authenticated then some (intToDigits r.userId) else get_client_ip r

/-- Models `CustomThrottle.get_rate`: the `'user'` rate for authenticated
requests, the `'anon'` rate otherwise. -/
def get_rate (rates : ThrottleRates) (r : Request) : List Char :=
  if r.authenticated then rates.user else rates.anon

/-- Models `CustomThrottle.parse_rate`.  `rate.split('/')` must unpack into
exactly two parts (otherwise the tuple-unpacking `ValueError` is caught and
re-raised as `ValidationError("Invalid rate format: ...")`); `int(num)`
failing takes the same path.  An unrecognised period raises
`ValidationError("Invalid rate period: ...")`, which propagates directly
because `ValidationError` is not a `ValueError` and thus is not caught by the
`except (ValueError, AttributeError)` clause. -/
def parse_rate (rate : List Char) : Except PyErr (Int × Int) :=
  match pySplit '/' rate with
  | [numStr, periodStr] =>
    match pyIntOfStr numStr with
    | Option.none =>
        Except.error (PyErr.validationError ("Invalid rate format: ".toList ++ rate))
    | some n =>
        if periodStr = "second".toList then Except.ok (n, 1)
        else if periodStr = "minute".toList then Except.ok (n, 60)
        else if periodStr = "hour".toList then Except.ok (n, 3600)
        else if periodStr = "day".toList then Except.ok (n, 86400)
        else Except.error (PyErr.validationError ("Invalid rate period: ".toList ++ periodStr))
  | _ => Except.error (PyErr.validationError ("Invalid rate format: ".toList ++ rate))

/-! ## The cache helper (`src/backend/common/utils.py`) -/

/-- The `CACHE_TTL_SECONDS` constant from `src/backend/common/constants.py`. -/
def CACHE_TTL_SECONDS : Int := 3600

/-- The body of `cache_result` before its `except` clause: compute the
prefixed key ("podcast_automation:" is the module's cache-prefix constant)
and the effective ttl, then run the injected internal operation (logging
plus the commented-out cache-backend call — the source explicitly marks the
spot "Actual cache implementation would be injected here") and return
`True`.  `internal` models whether that injected operation raises. -/
def cache_result_body (key : List Char) (value : PyVal) (ttl : Option Int)
    (internal : Option PyErr) : Except PyErr PyVal :=
  let _prefixed_key := "podcast_automation:".toList ++ key
  let _ttl_seconds := ttl.getD CACHE_TTL_SECONDS
  let _value := value
  match internal with
  | some e => Except.error e
  | Option.none => Except.ok (PyVal.bool true)

/-- Models `cache_result`: the body above wrapped in
`try: ... except Exception: return False`.  Its value is always a boolean —
never the previously stored data — because the real store call is a
placeholder. -/
def cache_result (key : List Char) (value : PyVal) (ttl : Option Int)
    (internal : Option PyErr) : Except PyErr PyVal :=
  match cache_result_body key value ttl internal with
  | Except.ok v => Except.ok v
  | Except.error _ => Except.ok (PyVal.bool false)

/-! ## The admission check (`CustomThrottle.allow_request`) -/

/-- Models the `while history and history[-1] <= now - period: history.pop()`
loop on an actual Python list.  `history[-1]` is the last element and
`pop()` removes it, so the loop drops expired timestamps from the tail; on
the reversed list this is exactly `dropWhile`. -/
def pruneList (now period : Int) (xs : List Int) : List Int :=
  (xs.reverse.dropWhile (fun t => decide (t ≤ now - period))).reverse

/-- Models the pruning loop on an arbitrary runtime value.  If `history` is
falsy the loop body never runs.  If it is truthy but not a list, evaluating
`history[-1] <= now - period` raises a `TypeError` (booleans and ints are
not subscriptable; for a string the subscript succeeds but comparing the
character to a float raises). -/
def pruneHistory (now period : Int) (history : PyVal) : Except PyErr PyVal :=
  match history with
  | PyVal.list xs => Except.ok (PyVal.list (pruneList now period xs))
  | v => if pyTruthy v then Except.error PyErr.typeError else Except.ok v

/-- Models Python `len(v)`: defined for containers and strings, `TypeError`
otherwise (in particular for the booleans `cache_result` returns). -/
def pyLen : PyVal → Except PyErr Int
  | PyVal.str s => Except.ok s.length
  | PyVal.list xs => Except.ok xs.length
  | PyVal.dict es => Except.ok es.length
  | _ => Except.error PyErr.typeError

/-- Models `history.insert(0, now)`: lists gain a new head; any other value
lacks an `insert` attribute (`AttributeError`). -/
def pyInsert0 (x : Int) : PyVal → Except PyErr PyVal
  | PyVal.list xs => Except.ok (PyVal.list (x :: xs))
  | _ => Except.error PyErr.attributeError

/-- Models the `try:` block of `allow_request`: fetch the window via
`cache_result` (which always yields a boolean), prune it, compare its length
to the limit, and on admission insert `now` and write the window back.
`getEff` and `setEff` model exceptions raised by the injected internals of
the two `cache_result` calls. -/
def allowTry (num_requests period now : Int) (cache_key : List Char)
    (getEff setEff : Option PyErr) : Except PyErr Bool :=
  match cache_result cache_key (PyVal.list []) (some period) getEff with
  | Except.error e => Except.error e
  | Except.ok history =>
    match pruneHistory now period history with
    | Except.error e => Except.error e
    | Except.ok pruned =>
      match pyLen pruned with
      | Except.error e => Except.error e
      | Except.ok n =>
        if n ≥ num_requests then Except.ok false
        else
          match pyInsert0 now pruned with
          | Except.error e => Except.error e
          | Except.ok newHistory =>
            match cache_result cache_key newHistory (some period) setEff with
            | Except.error e => Except.error e
            | Except.ok _ => Except.ok true

/-- Models `CustomThrottle.allow_request`.  It assigns `self.rate`, returns
`True` if the rate is falsy, assigns `self.ident`, parses the rate (errors
propagate — this call sits outside the `try:`), builds the cache key by
formatting the fixed `'throttle_{ident}_{rate}'` template (so a `None`
identity renders as "None"), then runs the `try:` block; any exception there
is caught and turned into a fail-open `True`.  `now` models `self.timer()`.
On the error path the partially updated instance is discarded by the model;
no caller in the repository reads it. -/
def allow_request (rates : ThrottleRates) (r : Request) (now : Int)
    (getEff setEff : Option PyErr) (st : CustomThrottleState) :
    Except PyErr (Bool × CustomThrottleState) :=
  let rate := get_rate rates r
  let st1 : CustomThrottleState := { st with rate := PyVal.str rate }
  if pyTruthy (PyVal.str rate) = false then Except.ok (true, st1)
  else
    let identV : PyVal :=
      match get_ident r with
      | some s => PyVal.str s
      | Option.none => PyVal.none
    let st2 : CustomThrottleState := { st1 with ident := identV }
    match parse_rate rate with
    | Except.error e => Except.error e
    | Except.ok np =>
      let cache_key :=
        "throttle_".toList ++ pyStrOf identV ++ '_' :: pyStrOf (PyVal.str rate)
      match allowTry np.1 np.2 now cache_key getEff setEff with
      | Except.ok b => Except.ok (b, st2)
      | Except.error _ => Except.ok (true, st2)

/-- Models `v[-1]` as used by `wait` on `self.history`: the last element of
a list or string, a `-1` key lookup on a dict (`KeyError` when absent),
`TypeError` otherwise. -/
def pySubscriptNeg1 : PyVal → Except PyErr PyVal
  | PyVal.list xs =>
    match xs.getLast? with
    | some t => Except.ok (PyVal.int t)
    | Option.none => Except.error PyErr.indexError
  | PyVal.str s =>
    match s.getLast? with
    | some c => Except.ok (PyVal.str [c])
    | Option.none => Except.error PyErr.indexError
  | PyVal.dict es =>
    match es.lookup (-1) with
    | some v => Except.ok (PyVal.int v)
    | Option.none => Except.error PyErr.keyError
  | _ => Except.error PyErr.typeError

/-- Models `CustomThrottle.wait`: `None` when `self.history` is falsy;
otherwise parse `self.rate` (a non-string rate such as `None` has no
`.split`, and the `AttributeError` is caught by `parse_rate`'s handler and
re-raised as a `ValidationError`), read `self.history[-1]`, and return
`oldest + period - now` when positive, else `None`. -/
def wait (now : Int) (st : CustomThrottleState) : Except PyErr PyVal :=
  if pyTruthy st.history = false then Except.ok PyVal.none
  else
    match (match st.rate with
           | PyVal.str s => parse_rate s
           | v => Except.error (PyErr.validationError ("Invalid rate format: ".toList ++ pyStrOf v))) with
    | Except.error e => Except.error e
    | Except.ok np =>
      match pySubscriptNeg1 st.history with
      | Except.error e => Except.error e
      | Except.ok (PyVal.int oldest) =>
        let wait_time := oldest + np.2 - now
        Except.ok (if wait_time > 0 then PyVal.int wait_time else PyVal.none)
      | Except.ok _ => Except.error PyErr.typeError

/-- Runs a sequence of `allow_request` calls on one throttle instance, one
call per entry of `times` (the successive `self.timer()` readings), threading
the instance state. -/
def runCallsAt (rates : ThrottleRates) (r : Request) (times : List Int)
    (getEff setEff : Option PyErr) (st : CustomThrottleState) :
    Except PyErr (List Bool × CustomThrottleState) :=
  match times with
  | [] => Except.ok ([], st)
  | t :: rest =>
    match allow_request rates r t getEff setEff st with
    | Except.error e => Except.error e
    | Except.ok bs1 =>
      match runCallsAt rates r rest getEff setEff bs1.2 with
      | Except.error e => Except.error e
      | Except.ok bs2 => Except.ok (bs1.1 :: bs2.1, bs2.2)

/-- An anonymous request from a fixed IP address, used by the concrete
evaluation theorems. -/
def anonRequest : Request :=
  { authenticated := false
  , userId := 0
  , httpXForwardedFor := Option.none
  , remoteAddr := some "1.2.3.4".toList }

/-- An anonymous request carrying a forwarded-for header with two entries
and surrounding whitespace, used by the identity-resolution theorems. -/
def forwardedRequest : Request :=
  { authenticated := false
  , userId := 0
  , httpXForwardedFor := some " 9.9.9.9 , 8.8.8.8".toList
  , remoteAddr := some "7.7.7.7".toList }

/-- Written from the spec's words for the rate-string grammar
`"<int>/<second|minute|hour|day>"`: exactly two '/'-separated tokens, an
integer count, and a recognised period name.  (Deliberately without the
spec's positivity requirement on the count, which the source does not
check — compare `parse_rate_rejects_malformed` and
`parse_rate_zero_count_accepted`.) -/
def isWellFormedRate (s : List Char) : Bool :=
  match pySplit '/' s with
  | [numStr, periodStr] =>
    (pyIntOfStr numStr).isSome &&
      decide (periodStr ∈ ["second".toList, "minute".toList, "hour".toList, "day".toList])
  | _ => false

end Throttle

/-! ## Helper lemmas about the string and digit primitives -/

namespace Throttle

theorem isPyDigit_digitChar (d : Nat) (h : d < 10) : isPyDigit (digitChar d) = true := by
  interval_cases d <;> decide

theorem toNat_digitChar (d : Nat) (h : d < 10) : (digitChar d).toNat - 48 = d := by
  interval_cases d <;> decide

theorem isPyDigit_not_space (c : Char) (h : isPyDigit c = true) : isPySpace c = false := by
  cases hs : isPySpace c
  · rfl
  · exfalso
    revert h
    simp only [isPySpace, Bool.or_eq_true, beq_iff_eq] at hs
    rcases hs with ((((hc | hc) | hc) | hc) | hc) | hc <;> subst hc <;> decide

theorem isPyDigit_ne_signs (c : Char) (h : isPyDigit c = true) :
    c ≠ '/' ∧ c ≠ '-' ∧ c ≠ '+' := by
  refine ⟨?_, ?_, ?_⟩ <;> intro hc <;> subst hc <;> exact absurd h (by decide)

theorem digitsToNat_append (xs ys : List Char) (acc : Nat) :
    digitsToNat acc (xs ++ ys) = (digitsToNat acc xs).bind (fun m => digitsToNat m ys) := by
  induction xs generalizing acc with
  | nil => simp [digitsToNat]
  | cons c cs ih =>
    simp only [List.cons_append, digitsToNat, List.append_eq]
    by_cases h : isPyDigit c = true
    · rw [if_pos h, if_pos h, ih]
    · rw [if_neg h, if_neg h]
      rfl

theorem natToDigitsCore_ne_nil (fuel n : Nat) (h : n < fuel) :
    natToDigitsCore fuel n ≠ [] := by
  cases fuel with
  | zero => omega
  | succ f =>
    unfold natToDigitsCore
    by_cases h10 : n < 10
    · rw [if_pos h10]
      simp
    · rw [if_neg h10]
      simp

theorem natToDigitsCore_digits (fuel : Nat) :
    ∀ n, n < fuel → ∀ c ∈ natToDigitsCore fuel n, isPyDigit c = true := by
  induction fuel with
  | zero => omega
  | succ f ih =>
    intro n _ c hc
    unfold natToDigitsCore at hc
    by_cases h10 : n < 10
    · rw [if_pos h10] at hc
      simp only [List.mem_singleton] at hc
      subst hc
      exact isPyDigit_digitChar n h10
    · rw [if_neg h10] at hc
      rcases List.mem_append.mp hc with hl | hr
      · exact ih (n / 10) (by omega) c hl
      · simp only [List.mem_singleton] at hr
        subst hr
        exact isPyDigit_digitChar _ (Nat.mod_lt _ (by omega))

theorem digitsToNat_natToDigitsCore (fuel : Nat) :
    ∀ n, n < fuel → ∀ acc,
      digitsToNat acc (natToDigitsCore fuel n) =
        some (acc * 10 ^ (natToDigitsCore fuel n).length + n) := by
  induction fuel with
  | zero => omega
  | succ f ih =>
    intro n hn acc
    by_cases h10 : n < 10
    · unfold natToDigitsCore
      rw [if_pos h10]
      simp only [digitsToNat, if_pos (isPyDigit_digitChar n h10), toNat_digitChar n h10,
        List.length_singleton, pow_one]
    · unfold natToDigitsCore
      rw [if_neg h10]
      rw [digitsToNat_append, ih (n / 10) (by omega) acc]
      simp only [Option.some_bind]
      have hm : n % 10 < 10 := Nat.mod_lt _ (by omega)
      simp only [digitsToNat, if_pos (isPyDigit_digitChar _ hm), toNat_digitChar _ hm,
        List.length_append, List.length_singleton]
      congr 1
      rw [pow_succ, ← mul_assoc]
      have hdm : 10 * (n / 10) + n % 10 = n := Nat.div_add_mod n 10
      generalize acc * 10 ^ (natToDigitsCore f (n / 10)).length = Q
      omega

theorem natToDigits_all_digits (n : Nat) : ∀ c ∈ natToDigits n, isPyDigit c = true :=
  natToDigitsCore_digits (n + 1) n (by omega)

theorem natToDigits_ne_nil (n : Nat) : natToDigits n ≠ [] :=
  natToDigitsCore_ne_nil (n + 1) n (by omega)

theorem digitsToNat_natToDigits (n : Nat) : digitsToNat 0 (natToDigits n) = some n := by
  have h := digitsToNat_natToDigitsCore (n + 1) n (by omega) 0
  simpa [natToDigits] using h

theorem dropWhile_eq_self_of_not (p : Char → Bool) (l : List Char)
    (h : ∀ c ∈ l, p c = false) : l.dropWhile p = l := by
  cases l with
  | nil => rfl
  | cons c cs =>
    rw [List.dropWhile_cons, h c (List.mem_cons_self c cs)]
    simp

theorem pyStrip_no_space (l : List Char) (h : ∀ c ∈ l, isPySpace c = false) :
    pyStrip l = l := by
  unfold pyStrip
  rw [dropWhile_eq_self_of_not _ _ h,
    dropWhile_eq_self_of_not _ _ (fun c hc => h c (List.mem_reverse.mp hc)),
    List.reverse_reverse]

theorem pyIntOfStr_natToDigits (n : Nat) : pyIntOfStr (natToDigits n) = some (n : Int) := by
  have hd := natToDigits_all_digits n
  have hstrip : pyStrip (natToDigits n) = natToDigits n :=
    pyStrip_no_space _ (fun c hc => isPyDigit_not_space c (hd c hc))
  obtain ⟨c, rest, hl⟩ := List.exists_cons_of_ne_nil (natToDigits_ne_nil n)
  have hcd : isPyDigit c = true := hd c (by rw [hl]; exact List.mem_cons_self c rest)
  rw [pyIntOfStr, hstrip, hl]
  simp only [pyIntOfStripped, if_neg (isPyDigit_ne_signs c hcd).2.1,
    if_neg (isPyDigit_ne_signs c hcd).2.2]
  rw [← hl, digitsToNat_natToDigits n]
  rfl

theorem pySplit_ne_nil (sep : Char) (l : List Char) : pySplit sep l ≠ [] := by
  cases l with
  | nil => simp [pySplit]
  | cons c rest =>
    simp only [pySplit]
    by_cases hc : c = sep
    · rw [if_pos hc]
      simp
    · rw [if_neg hc]
      simp

theorem pySplit_no_sep (sep : Char) (l : List Char) (h : ∀ c ∈ l, c ≠ sep) :
    pySplit sep l = [l] := by
  induction l with
  | nil => rfl
  | cons c rest ih =>
    simp only [pySplit]
    rw [if_neg (h c (List.mem_cons_self c rest)),
      ih (fun x hx => h x (List.mem_cons_of_mem c hx))]
    rfl

theorem pySplit_append_sep (sep : Char) (xs ys : List Char) (h : ∀ c ∈ xs, c ≠ sep) :
    pySplit sep (xs ++ sep :: ys) = xs :: pySplit sep ys := by
  induction xs with
  | nil =>
    simp [List.nil_append, pySplit]
  | cons c rest ih =>
    simp only [List.cons_append, pySplit, List.append_eq]
    rw [if_neg (h c (List.mem_cons_self c rest)),
      ih (fun x hx => h x (List.mem_cons_of_mem c hx))]
    rfl

theorem natToDigits_no_slash (n : Nat) : ∀ c ∈ natToDigits n, c ≠ '/' :=
  fun c hc => (isPyDigit_ne_signs c (natToDigits_all_digits n c hc)).1

/-- Closed form of `parse_rate` on a well-shaped "digits/period" string:
the period name alone decides the outcome. -/
theorem parse_rate_digits_period (n : Nat) (p : List Char) (hp : ∀ c ∈ p, c ≠ '/') :
    parse_rate (natToDigits n ++ '/' :: p) =
      (if p = "second".toList then Except.ok ((n : Int), 1)
       else if p = "minute".toList then Except.ok ((n : Int), 60)
       else if p = "hour".toList then Except.ok ((n : Int), 3600)
       else if p = "day".toList then Except.ok ((n : Int), 86400)
       else Except.error (PyErr.validationError ("Invalid rate period: ".toList ++ p))) := by
  unfold parse_rate
  rw [pySplit_append_sep '/' (natToDigits n) p (natToDigits_no_slash n),
    pySplit_no_sep '/' p hp]
  simp only [pyIntOfStr_natToDigits n]

/-- Unfolding equation for `parse_rate` once the split is known to have
exactly two tokens. -/
theorem parse_rate_two_tokens (s a b : List Char) (hs : pySplit '/' s = [a, b]) :
    parse_rate s =
      (match pyIntOfStr a with
       | Option.none =>
           Except.error (PyErr.validationError ("Invalid rate format: ".toList ++ s))
       | some n =>
           if b = "second".toList then Except.ok (n, 1)
           else if b = "minute".toList then Except.ok (n, 60)
           else if b = "hour".toList then Except.ok (n, 3600)
           else if b = "day".toList then Except.ok (n, 86400)
           else Except.error (PyErr.validationError ("Invalid rate period: ".toList ++ b))) := by
  unfold parse_rate
  rw [hs]

/-- Unfolding equation for `isWellFormedRate` once the split is known to
have exactly two tokens. -/
theorem isWellFormedRate_two_tokens (s a b : List Char) (hs : pySplit '/' s = [a, b]) :
    isWellFormedRate s =
      ((pyIntOfStr a).isSome &&
        decide (b ∈ ["second".toList, "minute".toList, "hour".toList, "day".toList])) := by
  unfold isWellFormedRate
  rw [hs]

/-! ## Helper lemmas about the admission path -/

theorem cache_result_is_bool (key : List Char) (v : PyVal) (ttl : Option Int)
    (internal : Option PyErr) :
    cache_result key v ttl internal = Except.ok (PyVal.bool internal.isNone) := by
  cases internal <;> rfl

/-- The `try:` block of `allow_request` always raises a `TypeError`: the
fetched "window" is one of the booleans returned by `cache_result`, so
either the pruning loop subscripts a boolean or `len` is applied to one. -/
theorem allowTry_typeError (num_requests period now : Int) (cache_key : List Char)
    (getEff setEff : Option PyErr) :
    allowTry num_requests period now cache_key getEff setEff =
      Except.error PyErr.typeError := by
  cases getEff <;> rfl

/-- Closed form of `allow_request`: a falsy configured rate admits
immediately; a malformed rate propagates its `ValidationError`; in every
other case the swallowed `TypeError` makes the call fail open with `True`.
The returned state carries the new `rate` and `ident` attributes and an
untouched `history`. -/
theorem allow_request_closed_form (rates : ThrottleRates) (r : Request) (now : Int)
    (getEff setEff : Option PyErr) (st : CustomThrottleState) :
    allow_request rates r now getEff setEff st =
      (if (get_rate rates r).isEmpty then
        Except.ok (true, { st with rate := PyVal.str (get_rate rates r) })
      else
        match parse_rate (get_rate rates r) with
        | Except.error e => Except.error e
        | Except.ok _ =>
          Except.ok (true,
            { st with
                rate := PyVal.str (get_rate rates r)
              , ident :=
                  match get_ident r with
                  | some s2 => PyVal.str s2
                  | Option.none => PyVal.none })) := by
  unfold allow_request
  simp only [pyTruthy, Bool.not_eq_false']
  by_cases he : (get_rate rates r).isEmpty
  · rw [if_pos he, if_pos he]
  · rw [if_neg he, if_neg he]
    cases hp : parse_rate (get_rate rates r) with
    | error e => rfl
    | ok np => simp [allowTry_typeError]

/-- A single successful `allow_request` call never writes the `history`
attribute (the window lives only in a local variable). -/
theorem allow_request_preserves_history (rates : ThrottleRates) (r : Request)
    (now : Int) (getEff setEff : Option PyErr) (st : CustomThrottleState)
    (b : Bool) (st2 : CustomThrottleState)
    (h : allow_request rates r now getEff setEff st = Except.ok (b, st2)) :
    st2.history = st.history := by
  rw [allow_request_closed_form] at h
  by_cases he : (get_rate rates r).isEmpty
  · rw [if_pos he] at h
    cases h
    rfl
  · rw [if_neg he] at h
    cases hp : parse_rate (get_rate rates r) with
    | error e => rw [hp] at h; cases h
    | ok np =>
      rw [hp] at h
      cases h
      rfl

/-- Iterated form: a whole sequence of `allow_request` calls never writes
the `history` attribute. -/
theorem runCallsAt_preserves_history (rates : ThrottleRates) (r : Request)
    (times : List Int) (getEff setEff : Option PyErr) :
    ∀ st bs st2, runCallsAt rates r times getEff setEff st = Except.ok (bs, st2) →
      st2.history = st.history := by
  induction times with
  | nil =>
    intro st bs st2 h
    cases h
    rfl
  | cons t rest ih =>
    intro st bs st2 h
    unfold runCallsAt at h
    split at h
    · cases h
    · rename_i bs1 h1
      split at h
      · cases h
      · rename_i bs2 h2
        cases h
        rw [ih bs1.2 bs2.1 bs2.2 h2,
          allow_request_preserves_history rates r t getEff setEff st bs1.1 bs1.2 (by rw [h1])]

/-- With an empty (falsy) `history` dict, `wait` takes its early-return
branch. -/
theorem wait_of_empty_history (now : Int) (st : CustomThrottleState)
    (h : st.history = PyVal.dict []) : wait now st = Except.ok PyVal.none := by
  unfold wait
  rw [h]
  rfl

/-! ## Claim theorems -/

/-- Claim C1 (code evaluation at the failing input): with the configured
anonymous rate '10/hour' (limit L = 10), a fresh identity and the clock held
constant, eleven sequential `allow_request` calls ALL return `true` — the
`(L+1)`-th call is not denied.  `cache_result` is a placeholder that returns
the boolean `True` instead of the stored window, so the pruning loop raises
a `TypeError` that the fail-open handler swallows on every call. -/
theorem runCallsAt_eleven_all_true :
    (runCallsAt DEFAULT_THROTTLE_RATES anonRequest (List.replicate 11 1000)
        Option.none Option.none CustomThrottle.init).toOption.map (fun p => p.1) =
      some (List.replicate 11 true) := by decide

/-- Claim C2: if the backing store raises during the window fetch or the
window write (modelled by the injected effects of the two `cache_result`
calls), `allow_request` returns `true` and propagates no exception, for any
request whose configured rate parses. -/
theorem allow_request_fail_open_on_store_error (rates : ThrottleRates) (r : Request)
    (now : Int) (getEff setEff : Option PyErr) (st : CustomThrottleState) (e : PyErr)
    (hparse : ∃ pr, parse_rate (get_rate rates r) = Except.ok pr)
    (_hstore : getEff = some e ∨ setEff = some e) :
    ∃ st2, allow_request rates r now getEff setEff st = Except.ok (true, st2) := by
  obtain ⟨pr, hpr⟩ := hparse
  rw [allow_request_closed_form]
  have he : (get_rate rates r).isEmpty = false := by
    cases hg : get_rate rates r with
    | nil =>
      rw [hg] at hpr
      have h0 : parse_rate ([] : List Char) =
          Except.error (PyErr.validationError ("Invalid rate format: ".toList)) := by decide
      rw [h0] at hpr
      cases hpr
    | cons c cs => rfl
  rw [he, if_neg (by decide), hpr]
  exact ⟨_, rfl⟩

/-- Witness for C2 at a concrete input: default rates, anonymous request,
the window-fetch effect raising. -/
theorem allow_request_fail_open_on_store_error_witness :
    ∃ st2, allow_request DEFAULT_THROTTLE_RATES anonRequest 0 (some PyErr.storeError)
        Option.none CustomThrottle.init = Except.ok (true, st2) :=
  allow_request_fail_open_on_store_error DEFAULT_THROTTLE_RATES anonRequest 0
    (some PyErr.storeError) Option.none CustomThrottle.init PyErr.storeError
    ⟨(10, 3600), by decide⟩ (Or.inl rfl)

/-- Claim C3: for every positive integer N and each of the four period
names, `parse_rate` on the string "N/period" returns the pair of N and the
fixed seconds table value (second 1, minute 60, hour 3600, day 86400). -/
theorem parse_rate_roundtrip (N : Nat) (_hN : 0 < N) :
    parse_rate (natToDigits N ++ "/second".toList) = Except.ok ((N : Int), 1) ∧
    parse_rate (natToDigits N ++ "/minute".toList) = Except.ok ((N : Int), 60) ∧
    parse_rate (natToDigits N ++ "/hour".toList) = Except.ok ((N : Int), 3600) ∧
    parse_rate (natToDigits N ++ "/day".toList) = Except.ok ((N : Int), 86400) := by
  refine ⟨?_, ?_, ?_, ?_⟩
  · rw [show ("/second".toList : List Char) = '/' :: "second".toList by decide,
      parse_rate_digits_period N _ (by decide), if_pos rfl]
  · rw [show ("/minute".toList : List Char) = '/' :: "minute".toList by decide,
      parse_rate_digits_period N _ (by decide), if_neg (by decide), if_pos rfl]
  · rw [show ("/hour".toList : List Char) = '/' :: "hour".toList by decide,
      parse_rate_digits_period N _ (by decide), if_neg (by decide), if_neg (by decide),
      if_pos rfl]
  · rw [show ("/day".toList : List Char) = '/' :: "day".toList by decide,
      parse_rate_digits_period N _ (by decide), if_neg (by decide), if_neg (by decide),
      if_neg (by decide), if_pos rfl]

/-- Witness for C3 at N = 100 with the hour period. -/
theorem parse_rate_roundtrip_witness :
    0 < 100 ∧ parse_rate (natToDigits 100 ++ "/hour".toList) = Except.ok ((100 : Int), 3600) :=
  ⟨by decide, (parse_rate_roundtrip 100 (by decide)).2.2.1⟩

/-- Claim C4, counterexample: `parse_rate` does NOT raise on a non-positive
count — "0/hour" is accepted and returns (0, 3600). -/
theorem parse_rate_zero_count_accepted :
    parse_rate ("0/hour".toList) = Except.ok (0, 3600) := by decide

/-- Claim C4 as amended: `parse_rate` raises a `ValidationError` for every
string that is not of the form integer/period — a different number of
'/'-separated tokens, a non-integer count, or an unrecognised period name
(but non-positive counts are accepted; the source never checks the sign). -/
theorem parse_rate_rejects_malformed (s : List Char) (h : isWellFormedRate s = false) :
    ∃ msg, parse_rate s = Except.error (PyErr.validationError msg) := by
  cases hs : pySplit '/' s with
  | nil =>
    refine ⟨"Invalid rate format: ".toList ++ s, ?_⟩
    unfold parse_rate
    rw [hs]
  | cons a l1 =>
    cases l1 with
    | nil =>
      refine ⟨"Invalid rate format: ".toList ++ s, ?_⟩
      unfold parse_rate
      rw [hs]
    | cons b l2 =>
      cases l2 with
      | cons c l3 =>
        refine ⟨"Invalid rate format: ".toList ++ s, ?_⟩
        unfold parse_rate
        rw [hs]
      | nil =>
        rw [isWellFormedRate_two_tokens s a b hs] at h
        rw [parse_rate_two_tokens s a b hs]
        by_cases hna : pyIntOfStr a = Option.none
        · rw [hna]
          exact ⟨_, rfl⟩
        · obtain ⟨n, hn⟩ := Option.ne_none_iff_exists'.mp hna
          rw [hn] at h
          rw [hn]
          simp only [Option.isSome_some, Bool.true_and, decide_eq_false_iff_not,
            List.mem_cons, List.mem_singleton, not_or] at h
          obtain ⟨h1, h2, h3, h4, h5⟩ := h
          refine ⟨"Invalid rate period: ".toList ++ b, ?_⟩
          simp only [if_neg h1, if_neg h2, if_neg h3, if_neg h4]

/-- Witness for the amended C4 at the concrete malformed input "abc/hour". -/
theorem parse_rate_rejects_malformed_witness :
    isWellFormedRate ("abc/hour".toList) = false ∧
      ∃ msg, parse_rate ("abc/hour".toList) = Except.error (PyErr.validationError msg) :=
  ⟨by decide, parse_rate_rejects_malformed _ (by decide)⟩

/-- Claim C5: a nonempty configured rate string that fails to parse makes
`allow_request` propagate the `ValidationError` to its caller (the
`parse_rate` call sits outside the `try:` block), in contrast to store
errors, which are swallowed. -/
theorem allow_request_propagates_invalid_rate (rates : ThrottleRates) (r : Request)
    (now : Int) (getEff setEff : Option PyErr) (st : CustomThrottleState) (e : PyErr)
    (hne : (get_rate rates r).isEmpty = false)
    (hparse : parse_rate (get_rate rates r) = Except.error e) :
    allow_request rates r now getEff setEff st = Except.error e := by
  rw [allow_request_closed_form, hne, if_neg (by decide), hparse]

/-- Witness for C5: both configured rates set to the malformed string "x". -/
theorem allow_request_propagates_invalid_rate_witness :
    allow_request { user := "x".toList, anon := "x".toList } anonRequest 0 Option.none
        Option.none CustomThrottle.init =
      Except.error (PyErr.validationError ("Invalid rate format: x".toList)) :=
  allow_request_propagates_invalid_rate { user := "x".toList, anon := "x".toList }
    anonRequest 0 Option.none Option.none CustomThrottle.init _ (by decide) (by decide)

/-- Claim C6 (code evaluation): no call to `allow_request` ever returns
`false` — the deny branch of the source is unreachable, because the fetched
window is a boolean and the resulting `TypeError` is swallowed fail-open.
Every call either admits with `true` or propagates a rate-parsing error. -/
theorem allow_request_never_denies (rates : ThrottleRates) (r : Request) (now : Int)
    (getEff setEff : Option PyErr) (st : CustomThrottleState) :
    (∃ st2, allow_request rates r now getEff setEff st = Except.ok (true, st2)) ∨
    (∃ e, allow_request rates r now getEff setEff st = Except.error e) := by
  rw [allow_request_closed_form]
  by_cases he : (get_rate rates r).isEmpty = true
  · rw [if_pos he]
    exact Or.inl ⟨_, rfl⟩
  · rw [if_neg he]
    cases hp : parse_rate (get_rate rates r) with
    | error e => exact Or.inr ⟨e, rfl⟩
    | ok np => exact Or.inl ⟨_, rfl⟩

/-- Claim C7 (code evaluation at the failing input): `wait` on a fresh
instance returns `None`, and it STILL returns `None` after admitted calls at
t = 0 and t = 5 (where the claim's formula `oldest + period - now` would be
0 + 3600 - 5 = 3595 > 0), because `allow_request` never writes the
`history` attribute it reads. -/
theorem wait_none_despite_prior_calls :
    wait 0 CustomThrottle.init = Except.ok PyVal.none ∧
    (runCallsAt DEFAULT_THROTTLE_RATES anonRequest [0, 5] Option.none Option.none
        CustomThrottle.init).toOption.map (fun p => wait 5 p.2) =
      some (Except.ok PyVal.none) := by decide

/-- Claim C8, counterexample: for an unauthenticated request with neither a
forwarded-for header nor a remote address, `get_ident` evaluates to Python
`None` (modelled by `Option.none`) — not to an empty-but-valid string. -/
theorem get_ident_unresolvable_returns_none :
    get_ident { authenticated := false, userId := 0, httpXForwardedFor := Option.none,
                remoteAddr := Option.none } = Option.none := by decide

/-- Claim C8 as amended: `get_ident` on an unauthenticated request never
raises (it is a total function); it returns the first comma-separated entry
of the forwarded-for header stripped of whitespace when that header is
present and nonempty, and otherwise falls back to `REMOTE_ADDR` — which is
Python `None`, not an empty string, when that key is absent too. -/
theorem get_ident_unauthenticated_spec (r : Request) (h : r.authenticated = false) :
    (∀ xff, r.httpXForwardedFor = some xff → xff ≠ [] →
        get_ident r = some (pyStrip ((pySplit ',' xff).headD []))) ∧
    ((r.httpXForwardedFor = Option.none ∨ r.httpXForwardedFor = some []) →
        get_ident r = r.remoteAddr) := by
  constructor
  · intro xff hxff hne
    have hxe : xff.isEmpty = false := by
      cases xff with
      | nil => exact absurd rfl hne
      | cons c cs => rfl
    simp [get_ident, get_client_ip, h, hxff, hxe]
  · intro hcase
    rcases hcase with hx | hx <;> simp [get_ident, get_client_ip, h, hx]

/-- Witness for the amended C8: the forwarded-for header
" 9.9.9.9 , 8.8.8.8" resolves to "9.9.9.9". -/
theorem get_ident_unauthenticated_spec_witness :
    get_ident forwardedRequest = some ("9.9.9.9".toList) := by
  rw [(get_ident_unauthenticated_spec forwardedRequest rfl).1
      (" 9.9.9.9 , 8.8.8.8".toList) rfl (by decide)]
  decide

/-- Claim C9: `cache_result` never raises — it always returns `ok` of a
boolean: `True` on the non-exceptional path, `False` when its internals
raise.  In particular the throttle's window fetch
`cache_result(cache_key, [], period)` yields the boolean `True`, never a
list of timestamps. -/
theorem cache_result_total_boolean (key : List Char) (v : PyVal) (ttl : Option Int)
    (internal : Option PyErr) :
    (internal = Option.none → cache_result key v ttl internal = Except.ok (PyVal.bool true)) ∧
    (∀ e, internal = some e → cache_result key v ttl internal = Except.ok (PyVal.bool false)) ∧
    cache_result key (PyVal.list []) ttl Option.none = Except.ok (PyVal.bool true) := by
  refine ⟨?_, ?_, rfl⟩
  · intro hi
    subst hi
    rfl
  · intro e hi
    subst hi
    rfl

/-- Witness for C9 at a concrete key, value and ttl. -/
theorem cache_result_total_boolean_witness :
    cache_result ("k".toList) PyVal.none (some 60) Option.none =
      Except.ok (PyVal.bool true) :=
  (cache_result_total_boolean ("k".toList) PyVal.none (some 60) Option.none).1 rfl

/-- Claim C10: the `history` attribute equals the empty dict set by
`__init__` and is never written by `allow_request` (which only mutates a
local variable), so after any sequence of calls `wait` still takes its
empty-history branch and returns `None`. -/
theorem history_attribute_never_written :
    CustomThrottle.init.history = PyVal.dict [] ∧
    (∀ rates r now getEff setEff st b st2,
        allow_request rates r now getEff setEff st = Except.ok (b, st2) →
          st2.history = st.history) ∧
    (∀ rates r times getEff setEff bs st2,
        runCallsAt rates r times getEff setEff CustomThrottle.init = Except.ok (bs, st2) →
          ∀ now2, wait now2 st2 = Except.ok PyVal.none) := by
  refine ⟨rfl, allow_request_preserves_history, ?_⟩
  intro rates r times getEff setEff bs st2 h now2
  refine wait_of_empty_history now2 st2 ?_
  rw [runCallsAt_preserves_history rates r times getEff setEff CustomThrottle.init bs st2 h]
  rfl

/-- Witness for C10: after one admitted call, the instance state still has
the empty history dict and `wait` returns `None`. -/
theorem history_attribute_never_written_witness :
    wait 7 ({ rate := PyVal.str ("10/hour".toList), history := PyVal.dict [],
              cache_format := "throttle_{ident}_{rate}".toList,
              ident := PyVal.str ("1.2.3.4".toList) } : CustomThrottleState) =
      Except.ok PyVal.none :=
  (history_attribute_never_written).2.2 DEFAULT_THROTTLE_RATES anonRequest [0]
    Option.none Option.none [true] _ (by decide) 7

end Throttle

